import Mathlib

/-!
The package rdb: a repository facade over a relational store.

A shallow embedding of `repo.go` (package `rdb`) and of the entity type of
`repo_test.go`.

Go passes the entity and the destination by pointer and the executor talks to a
database, so every operation is a function of the object pointed to and of the
state of the outside world, and returns the error, the object as the caller
finds it afterwards, the new state, and the calls it made to its collaborators
(the identifier generator and the executor), in order.

The collaborators that are not part of the repository are parameters: the
identifier generator (`uuid.NewID`), the executor (`modl.SqlExecutor`), the
type-to-table mapping (`modl.DbMap.TableFor`) and the reflected type name.
The two library functions whose result the repository's branches depend on are
written out: `errors.As` (the walk along the `Unwrap` chain) and the rendering of
a `squirrel` select builder with dollar placeholders.
-/

namespace Rdb

/-! ## Go errors -/

/-- The type `pq.ErrorCode`: the SQLSTATE code of a driver error. The driver's table from
codes to condition names is not part of the repository; `Name` is what `Code.Name()`
returns for this code. -/
structure ErrorCode where
  code : String
  Name : String
deriving DecidableEq, Repr

/-- The type `pq.Error`, with the two fields that reach the repository. -/
structure PqError where
  Code : ErrorCode
  Message : String
deriving DecidableEq, Repr

/-- A Go `error` value.
* `pq`: a `*pq.Error`;
* `errorString`: what `errors.New` and `fmt.Errorf` without `%w` return (`sql.ErrNoRows` is one);
* `wrapError`: what `fmt.Errorf` with `%w` returns, an error with an `Unwrap` method;
* `ErrEntityAlreadyExists`: the repository's own `*ErrEntityAlreadyExists`, which has no
  `Unwrap` method. -/
inductive GoError where
  | pq (e : PqError)
  | errorString (s : String)
  | wrapError (msg : String) (err : GoError)
  | ErrEntityAlreadyExists (OriginalError : GoError)
deriving DecidableEq, Repr

/-- The method `Error()`. For `ErrEntityAlreadyExists` it is `e.OriginalError.Error()`
(repo.go, line 47); a `*pq.Error` prints `"pq: " + Message`. -/
def GoError.Error : GoError → String
  | .pq e => "pq: " ++ e.Message
  | .errorString s => s
  | .wrapError msg _ => msg
  | .ErrEntityAlreadyExists o => o.Error

/-- The call `errors.As(err, &pqError)` with `pqError` of type `*pq.Error`: the first
`*pq.Error` on the `Unwrap` chain of `err`, if there is one. -/
def errors.As : GoError → Option PqError
  | .pq e => some e
  | .wrapError _ err => errors.As err
  | .errorString _ => none
  | .ErrEntityAlreadyExists _ => none

/-- The call `fmt.Errorf` with a format that has no `%w`, applied to the formatted text. -/
def fmt.Errorf (text : String) : GoError := .errorString text

/-- The value `sql.ErrNoRows`. -/
def sql.ErrNoRows : GoError := .errorString "sql: no rows in result set"

/-! ## The query builder (`squirrel`) -/

/-- A bound argument of a query (`interface{}` in Go). -/
inductive Arg where
  | str (s : String)
  | int (i : Int)
  | bool (b : Bool)
deriving DecidableEq, Repr

namespace sq

/-- The placeholder formats of `squirrel` that occur here. -/
inductive PlaceholderFormat where
  | Question
  | Dollar
deriving DecidableEq, Repr

/-- The part of `squirrel`'s `selectData` that `Select`, `From` and `Where` fill in.
A part is its SQL text with its arguments. -/
structure selectData where
  PlaceholderFormat : PlaceholderFormat
  Columns : List (String × List Arg)
  From : Option (String × List Arg)
  WhereParts : List (String × List Arg)
deriving DecidableEq, Repr

/-- The type `sq.SelectBuilder`. -/
structure SelectBuilder where
  data : selectData
deriving DecidableEq, Repr

/-- The call `sq.Select(columns...)`: a builder with question-mark placeholders. -/
def Select (columns : List String) : SelectBuilder :=
  ⟨⟨.Question, columns.map (fun c => (c, [])), none, []⟩⟩

/-- The method `From(from)`. -/
def SelectBuilder.From (b : SelectBuilder) (tbl : String) : SelectBuilder :=
  ⟨{ b.data with From := some (tbl, []) }⟩

/-- The method `Where(pred, args...)` for a string predicate; an empty predicate adds nothing. -/
def SelectBuilder.Where (b : SelectBuilder) (pred : String) (args : List Arg) : SelectBuilder :=
  if pred = "" then b else ⟨{ b.data with WhereParts := b.data.WhereParts ++ [(pred, args)] }⟩

/-- The method `PlaceholderFormat(f)`. -/
def SelectBuilder.PlaceholderFormat (b : SelectBuilder) (f : PlaceholderFormat) : SelectBuilder :=
  ⟨{ b.data with PlaceholderFormat := f }⟩

/-- The loop of `appendToSql`, from part number `i` on: a part with empty text is skipped,
and the separator is written before every part but the one numbered `0`. -/
def appendToSqlFrom (sep : String) : Nat → List (String × List Arg) → String × List Arg
  | _, [] => ("", [])
  | i, (partSql, partArgs) :: rest =>
    let r := appendToSqlFrom sep (i + 1) rest
    if partSql.length = 0 then r
    else ((if i > 0 then sep else "") ++ partSql ++ r.1, partArgs ++ r.2)

/-- The function `appendToSql(parts, w, sep, args)`: what it writes and the arguments it adds. -/
def appendToSql (parts : List (String × List Arg)) (sep : String) : String × List Arg :=
  appendToSqlFrom sep 0 parts

/-- The method `toSqlRaw` of `selectData`, for the parts modelled: the statement with
question-mark placeholders and its arguments. -/
def selectData.toSqlRaw (d : selectData) : Except GoError (String × List Arg) :=
  if d.Columns.length = 0 then
    .error (fmt.Errorf "select statements must have at least one result column")
  else
    let cols := appendToSql d.Columns ", "
    let frm : String × List Arg :=
      match d.From with
      | none => ("", [])
      | some f => let r := appendToSql [f] ""; (" FROM " ++ r.1, r.2)
    let whr : String × List Arg :=
      if d.WhereParts.length > 0 then
        let r := appendToSql d.WhereParts " AND "; (" WHERE " ++ r.1, r.2)
      else ("", [])
    .ok ("SELECT " ++ cols.1 ++ frm.1 ++ whr.1, cols.2 ++ frm.2 ++ whr.2)

/-- The function `replacePositionalPlaceholders(sql, "$")` on the characters of `sql`, having
already numbered `i` placeholders: `??` is an escaped question mark, every other `?` becomes
`$` followed by the next number. -/
def replacePositionalPlaceholders : List Char → Nat → List Char
  | [], _ => []
  | '?' :: '?' :: rest, i => '?' :: replacePositionalPlaceholders rest i
  | '?' :: rest, i => ("$" ++ toString (i + 1)).data ++ replacePositionalPlaceholders rest (i + 1)
  | c :: rest, i => c :: replacePositionalPlaceholders rest i

/-- The method `ReplacePlaceholders` of a placeholder format. -/
def PlaceholderFormat.ReplacePlaceholders (f : PlaceholderFormat) (sql : String) : String :=
  match f with
  | .Question => sql
  | .Dollar => String.mk (replacePositionalPlaceholders sql.data 0)

/-- The method `ToSql()` of a select builder: the raw statement with its placeholders
rewritten in the builder's format. -/
def SelectBuilder.ToSql (b : SelectBuilder) : Except GoError (String × List Arg) :=
  match b.data.toSqlRaw with
  | .error err => .error err
  | .ok (sqlStr, args) => .ok (b.data.PlaceholderFormat.ReplacePlaceholders sqlStr, args)

end sq

/-! ## Entities, executors, mappings -/

/-- The interface `Entity` (repo.go, line 25). -/
class Entity (E : Type) where
  GetID : E → String
  SetID : E → String → E

/-- The struct `modl.TableMap`, with the field the repository reads. -/
structure TableMap where
  TableName : String
deriving DecidableEq, Repr

/-- The interface `modl.SqlExecutor`, with the four methods the repository calls, each on one
object. A method receives a pointer, so it returns the object as it leaves it, next to its
results and the new state of the world. -/
structure SqlExecutor (σ E D : Type) where
  Insert : E → σ → Option GoError × E × σ
  Update : E → σ → (Int × Option GoError) × E × σ
  SelectOne : D → String → List Arg → σ → Option GoError × D × σ
  Select : D → String → List Arg → σ → Option GoError × D × σ

/-- The type `modl.Transaction`: an executor that can be committed or rolled back. -/
structure Transaction (σ E D : Type) extends SqlExecutor σ E D where
  Commit : σ → Option GoError × σ
  Rollback : σ → Option GoError × σ

/-- The type `modl.DbMap`: an executor that also holds the type-to-table mapping and
begins transactions. `TableFor` is `nil` (`none`) for a type without a table. -/
structure DbMap (σ E D : Type) extends SqlExecutor σ E D where
  TableFor : D → Option TableMap
  Begin : σ → Except GoError (Transaction σ E D) × σ

/-- A call made to a collaborator: the identifier generator (with the identifier it
returned) or a method of the executor (with its arguments). -/
inductive Call (E D : Type) where
  | NewID (id : String)
  | Insert (entity : E)
  | Update (entity : E)
  | SelectOne (dest : D) (query : String) (args : List Arg)
  | Select (dest : D) (query : String) (args : List Arg)
deriving DecidableEq, Repr

/-- What an operation leaves behind: the error it returns (`none` is `nil`), the object its
pointer argument points to, the state of the world, and the calls it made, in order. -/
structure Outcome (σ E D V : Type) where
  err : Option GoError
  value : V
  state : σ
  calls : List (Call E D)

/-! ## The operations of repo.go -/

/-- The function `create` (repo.go, line 163). `NewID` is `uuid.NewID`; the test
`len(entity.GetID()) == 0` is on the length of the string, which is zero for the empty string
only. -/
def create {σ E D : Type} [Entity E] (NewID : σ → String × σ)
    (entity : E) (se : SqlExecutor σ E D) (s : σ) : Outcome σ E D E :=
  let assigned : E × σ × List (Call E D) :=
    if (Entity.GetID entity).length = 0 then
      let g := NewID s
      (Entity.SetID entity g.1, g.2, [Call.NewID g.1])
    else (entity, s, [])
  let r := se.Insert assigned.1 assigned.2.1
  let calls := assigned.2.2 ++ [Call.Insert assigned.1]
  match r.1 with
  | some err =>
    match errors.As err with
    | some pqError =>
      if pqError.Code.Name = "unique_violation" then
        ⟨some (.ErrEntityAlreadyExists (.pq pqError)), r.2.1, r.2.2, calls⟩
      else ⟨some err, r.2.1, r.2.2, calls⟩
    | none => ⟨some err, r.2.1, r.2.2, calls⟩
  | none => ⟨none, r.2.1, r.2.2, calls⟩

/-- The function `update` (repo.go, line 179). -/
def update {σ E D : Type} (entity : E) (se : SqlExecutor σ E D) (s : σ) : Outcome σ E D E :=
  let r := se.Update entity s
  let count := r.1.1
  let err : Option GoError :=
    match r.1.2 with
    | none =>
      if count = 0 then some (fmt.Errorf ("Unexpected update count: " ++ toString count))
      else none
    | some e => some e
  ⟨err, r.2.1, r.2.2, [Call.Update entity]⟩

/-- The function `get` (repo.go, line 190). -/
def get {σ E D : Type} (dest : D) (sb : sq.SelectBuilder) (se : SqlExecutor σ E D) (s : σ) :
    Outcome σ E D D :=
  match (sb.PlaceholderFormat .Dollar).ToSql with
  | .error err => ⟨some err, dest, s, []⟩
  | .ok (query, args) =>
    let r := se.SelectOne dest query args s
    ⟨r.1, r.2.1, r.2.2, [Call.SelectOne dest query args]⟩

/-- The function `getByID` (repo.go, line 202). `typeName dest` is
`reflect.TypeOf(dest).Name()`. -/
def getByID {σ E D : Type} (typeName : D → String) (dest : D) (id : String)
    (se : SqlExecutor σ E D) (dbmap : DbMap σ E D) (s : σ) : Outcome σ E D D :=
  match dbmap.TableFor dest with
  | none => ⟨some (fmt.Errorf ("Unknown table for type: " ++ typeName dest)), dest, s, []⟩
  | some tmap =>
    get dest (((sq.Select ["*"]).From tmap.TableName).Where "id = ?" [Arg.str id]) se s

/-- The function `find` (repo.go, line 214). -/
def find {σ E D : Type} (dest : D) (sb : sq.SelectBuilder) (se : SqlExecutor σ E D) (s : σ) :
    Outcome σ E D D :=
  match (sb.PlaceholderFormat .Dollar).ToSql with
  | .error err => ⟨some err, dest, s, []⟩
  | .ok (query, args) =>
    let r := se.Select dest query args s
    ⟨r.1, r.2.1, r.2.2, [Call.Select dest query args]⟩

/-- The type `Repo` (repo.go, line 31). -/
structure Repo (σ E D : Type) where
  dbmap : DbMap σ E D

/-- The type `Tx` (repo.go, line 36). -/
structure Tx (σ E D : Type) where
  transaction : Transaction σ E D
  dbmap : DbMap σ E D

/-- The method `Repo.Create`. -/
def Repo.Create {σ E D : Type} [Entity E] (NewID : σ → String × σ) (r : Repo σ E D)
    (entity : E) (s : σ) : Outcome σ E D E :=
  create NewID entity r.dbmap.toSqlExecutor s

/-- The method `Tx.Create`. -/
def Tx.Create {σ E D : Type} [Entity E] (NewID : σ → String × σ) (t : Tx σ E D)
    (entity : E) (s : σ) : Outcome σ E D E :=
  create NewID entity t.transaction.toSqlExecutor s

/-- The method `Repo.Update`. -/
def Repo.Update {σ E D : Type} (r : Repo σ E D) (entity : E) (s : σ) : Outcome σ E D E :=
  update entity r.dbmap.toSqlExecutor s

/-- The method `Tx.Update`. -/
def Tx.Update {σ E D : Type} (t : Tx σ E D) (entity : E) (s : σ) : Outcome σ E D E :=
  update entity t.transaction.toSqlExecutor s

/-- The method `Repo.Get`. -/
def Repo.Get {σ E D : Type} (r : Repo σ E D) (dest : D) (sb : sq.SelectBuilder) (s : σ) :
    Outcome σ E D D :=
  get dest sb r.dbmap.toSqlExecutor s

/-- The method `Tx.Get`. -/
def Tx.Get {σ E D : Type} (t : Tx σ E D) (dest : D) (sb : sq.SelectBuilder) (s : σ) :
    Outcome σ E D D :=
  get dest sb t.transaction.toSqlExecutor s

/-- The method `Repo.GetByID`. -/
def Repo.GetByID {σ E D : Type} (typeName : D → String) (r : Repo σ E D) (dest : D)
    (id : String) (s : σ) : Outcome σ E D D :=
  getByID typeName dest id r.dbmap.toSqlExecutor r.dbmap s

/-- The method `Tx.GetByID`. -/
def Tx.GetByID {σ E D : Type} (typeName : D → String) (t : Tx σ E D) (dest : D)
    (id : String) (s : σ) : Outcome σ E D D :=
  getByID typeName dest id t.transaction.toSqlExecutor t.dbmap s

/-- The method `Repo.Find`. -/
def Repo.Find {σ E D : Type} (r : Repo σ E D) (dest : D) (sb : sq.SelectBuilder) (s : σ) :
    Outcome σ E D D :=
  find dest sb r.dbmap.toSqlExecutor s

/-- The method `Tx.Find`. -/
def Tx.Find {σ E D : Type} (t : Tx σ E D) (dest : D) (sb : sq.SelectBuilder) (s : σ) :
    Outcome σ E D D :=
  find dest sb t.transaction.toSqlExecutor s

/-- The method `Repo.Begin` (repo.go, line 134). -/
def Repo.Begin {σ E D : Type} (r : Repo σ E D) (s : σ) : Except GoError (Tx σ E D) × σ :=
  match r.dbmap.Begin s with
  | (.error err, s1) => (.error err, s1)
  | (.ok t, s1) => (.ok ⟨t, r.dbmap⟩, s1)

/-- The method `Tx.Commit` (repo.go, line 146). -/
def Tx.Commit {σ E D : Type} (t : Tx σ E D) (s : σ) : Option GoError × σ :=
  t.transaction.Commit s

/-- The method `Tx.Rollback` (repo.go, line 155). -/
def Tx.Rollback {σ E D : Type} (t : Tx σ E D) (s : σ) : Option GoError × σ :=
  t.transaction.Rollback s

/-! ## The entity of repo_test.go and executors to run the operations on -/

/-- The struct `EntitySample` (repo_test.go, line 21). `Created` is a time in
nanoseconds, in UTC. -/
structure EntitySample where
  ID : String
  Enabled : Bool
  Created : Nat
deriving DecidableEq, Repr

/-- The methods `GetID` and `SetID` of `*EntitySample` (repo_test.go, lines 27 and 31). -/
instance instEntityEntitySample : Entity EntitySample where
  GetID e := e.ID
  SetID e id := { e with ID := id }

/-- The hook `PreInsert` of `*EntitySample` (repo_test.go, line 35):
`e.Created = time.Now().Truncate(time.Microsecond).UTC()`, with `now` for `time.Now()`. -/
def EntitySample.PreInsert (e : EntitySample) (now : Nat) : EntitySample :=
  { e with Created := now - now % 1000 }

/-- The name `reflect.TypeOf(dest).Name()` of a destination of type `*EntitySample`: a
pointer type has no name. -/
def EntitySample.typeName : EntitySample → String := fun _ => ""

/-- The value `&EntitySample{}`. -/
def EntitySample.zero : EntitySample := ⟨"", false, 0⟩

/-- An entity type whose `SetID` has a value receiver
(`func (e ByValueSample) SetID(id string) { e.ID = id }`): it satisfies the interface
`Entity`, and the assignment is lost with the copy. -/
structure ByValueSample where
  ID : String
deriving DecidableEq, Repr

/-- The methods `GetID` and `SetID` of `ByValueSample`. -/
instance instEntityByValueSample : Entity ByValueSample where
  GetID e := e.ID
  SetID e _ := e

/-- An identifier generator that returns `id` every time. -/
def constNewID {σ : Type} (id : String) : σ → String × σ := fun s => (id, s)

/-- An executor without a database: `Insert` and `Update` leave the entity as `hook` leaves it
(an insert or update hook of the entity runs inside them), and the four methods return the
given results. -/
def stubExecutor {E D : Type} (hook : E → E) (insertErr : Option GoError)
    (updateRes : Int × Option GoError) (selectErr : Option GoError) : SqlExecutor Unit E D where
  Insert e s := (insertErr, hook e, s)
  Update e s := (updateRes, hook e, s)
  SelectOne dest _ _ s := (selectErr, dest, s)
  Select dest _ _ s := (selectErr, dest, s)

/-- A mapping over `stubExecutor` in which every type has the table `tbl`, or none has one. -/
def stubDbMap {E D : Type} (se : SqlExecutor Unit E D) (tbl : Option TableMap) :
    DbMap Unit E D where
  toSqlExecutor := se
  TableFor _ := tbl
  Begin s := (.ok ⟨se, fun s1 => (none, s1), fun s1 => (none, s1)⟩, s)

/-- An executor whose `SelectOne` fails with the text of the unknown-table error for a
destination of type `*EntitySample` (a hook that reads a second entity through the
repository and passes its error on). -/
def relayingExecutor : SqlExecutor Unit EntitySample EntitySample :=
  stubExecutor id none (1, none)
    (some (fmt.Errorf ("Unknown table for type: " ++ EntitySample.typeName EntitySample.zero)))

/-- The driver error of a duplicate key (SQLSTATE 23505). -/
def duplicateKey : PqError :=
  ⟨⟨"23505", "unique_violation"⟩, "duplicate key value violates unique constraint"⟩

/-- A store in memory: the rows of the table `entity_sample`, a clock, and the number of
identifiers generated so far. -/
structure Store where
  rows : List EntitySample
  now : Nat
  ids : Nat
deriving DecidableEq, Repr

/-- The identifier generator of the store in memory: `id-0`, `id-1`, and so on. -/
def Store.NewID (s : Store) : String × Store :=
  ("id-" ++ toString s.ids, { s with ids := s.ids + 1 })

/-- The query that selects one row of `entity_sample` by its identifier. -/
def Store.byID : String := "SELECT * FROM entity_sample WHERE id = $1"

/-- The executor of the store in memory. `Insert` runs the hook `PreInsert`, then adds the row
unless a row with its identifier is there, which is a uniqueness violation; `Update` replaces
the row with the entity's identifier and counts it; `SelectOne` answers the query by
identifier, with `sql.ErrNoRows` when no row matches. -/
def Store.executor : SqlExecutor Store EntitySample EntitySample where
  Insert e s :=
    let e1 := e.PreInsert s.now
    let s1 := { s with now := s.now + 1 }
    if s.rows.any (fun r => r.ID = e1.ID) then (some (.pq duplicateKey), e1, s1)
    else (none, e1, { s1 with rows := e1 :: s.rows })
  Update e s :=
    if s.rows.any (fun r => r.ID = e.ID) then
      ((1, none), e, { s with rows := s.rows.map (fun r => if r.ID = e.ID then e else r) })
    else ((0, none), e, s)
  SelectOne dest query args s :=
    if query = Store.byID then
      match args with
      | [Arg.str id] =>
        match s.rows.find? (fun r => r.ID = id) with
        | some r => (none, r, s)
        | none => (some sql.ErrNoRows, dest, s)
      | _ => (some (.errorString "pq: wrong number of arguments"), dest, s)
    else (some (.errorString "pq: query not supported"), dest, s)
  Select dest _ _ s := (some (.errorString "pq: query not supported"), dest, s)

/-- The transaction of the store in memory. -/
def Store.transaction : Transaction Store EntitySample EntitySample where
  toSqlExecutor := Store.executor
  Commit s := (none, s)
  Rollback s := (none, s)

/-- The mapping of the store in memory, as `NewRepo` builds it once `EntitySample` is
registered: the one table `entity_sample`. -/
def Store.dbmap : DbMap Store EntitySample EntitySample where
  toSqlExecutor := Store.executor
  TableFor _ := some ⟨"entity_sample"⟩
  Begin s := (.ok Store.transaction, s)

/-- An empty store. -/
def Store.empty : Store := ⟨[], 1700000000123456789, 0⟩

/-- A store keeps one row per identifier: no two rows of the table have the same identifier. -/
def Store.OneRowPerID (s : Store) : Prop := (s.rows.map (fun r => r.ID)).Nodup

/-- The row that a table whose column `created` holds whole seconds keeps of an entity. -/
def EntitySample.toSeconds (e : EntitySample) : EntitySample :=
  { e with Created := e.Created - e.Created % 1000000000 }

/-- The executor of a store in memory whose column `created` holds whole seconds. It is
`Store.executor` but for the row written: `Insert` and `Update` run as there, with the same
uniqueness check, and keep the entity with `Created` cut to the second. -/
def Store.lossyExecutor : SqlExecutor Store EntitySample EntitySample where
  Insert e s :=
    let e1 := e.PreInsert s.now
    let s1 := { s with now := s.now + 1 }
    if s.rows.any (fun r => r.ID = e1.ID) then (some (.pq duplicateKey), e1, s1)
    else (none, e1, { s1 with rows := e1.toSeconds :: s.rows })
  Update e s :=
    if s.rows.any (fun r => r.ID = e.ID) then
      ((1, none), e,
        { s with rows := s.rows.map (fun r => if r.ID = e.ID then e.toSeconds else r) })
    else ((0, none), e, s)
  SelectOne dest query args s :=
    if query = Store.byID then
      match args with
      | [Arg.str id] =>
        match s.rows.find? (fun r => r.ID = id) with
        | some r => (none, r, s)
        | none => (some sql.ErrNoRows, dest, s)
      | _ => (some (.errorString "pq: wrong number of arguments"), dest, s)
    else (some (.errorString "pq: query not supported"), dest, s)
  Select dest _ _ s := (some (.errorString "pq: query not supported"), dest, s)

/-- The mapping over the store whose column `created` holds whole seconds. -/
def Store.lossyDbmap : DbMap Store EntitySample EntitySample where
  toSqlExecutor := Store.lossyExecutor
  TableFor _ := some ⟨"entity_sample"⟩
  Begin s := (.ok ⟨Store.lossyExecutor, fun s1 => (none, s1), fun s1 => (none, s1)⟩, s)

/-! ## Names for what the operations hand to their collaborators -/

/-- The entity and the state with which `create` calls `Insert` (repo.go, lines 164 to 167):
the entity with a generated identifier assigned if its identifier was empty, the entity
as it came otherwise. -/
def create.reach {σ E : Type} [Entity E] (NewID : σ → String × σ) (entity : E) (s : σ) :
    E × σ :=
  if (Entity.GetID entity).length = 0 then (Entity.SetID entity (NewID s).1, (NewID s).2)
  else (entity, s)

/-- What the call of `Insert` in `create` returns: the error, the entity and the state. -/
def create.inserted {σ E D : Type} [Entity E] (NewID : σ → String × σ) (entity : E)
    (se : SqlExecutor σ E D) (s : σ) : Option GoError × E × σ :=
  se.Insert (create.reach NewID entity s).1 (create.reach NewID entity s).2

/-! ## Conditions on the collaborators -/

/-- The accessor law of an entity type: `GetID` returns what `SetID` stored. -/
def StoresID (E : Type) [Entity E] : Prop :=
  ∀ (e : E) (id : String), Entity.GetID (Entity.SetID e id) = id

/-- The unknown-table error of `getByID` (repo.go, line 205) for a destination. -/
def unknownTable {D : Type} (typeName : D → String) (dest : D) : GoError :=
  fmt.Errorf ("Unknown table for type: " ++ typeName dest)

/-- The builder of `getByID` (repo.go, lines 207 to 210) for the table `tbl`. -/
def byIDBuilder (tbl : String) (id : String) : sq.SelectBuilder :=
  ((sq.Select ["*"]).From tbl).Where "id = ?" [Arg.str id]

/-- An executor reads back what it inserted: once `Insert` has succeeded, selecting one row
of the table `tbl` by the identifier the entity then has, in the state `Insert` left,
succeeds and fills the destination with the entity exactly as `Insert` left it. This asks
more of a store than one row per identifier: every field must come back as it went in. -/
def ReadsBackInserted {σ E : Type} [Entity E] (se : SqlExecutor σ E E) (tbl : String) : Prop :=
  ∀ (e : E) (s : σ), (se.Insert e s).1 = none →
    ∀ dest : E,
      (se.SelectOne dest ("SELECT * FROM " ++ tbl ++ " WHERE id = $1")
          [Arg.str (Entity.GetID (se.Insert e s).2.1)] (se.Insert e s).2.2).1 = none ∧
      (se.SelectOne dest ("SELECT * FROM " ++ tbl ++ " WHERE id = $1")
          [Arg.str (Entity.GetID (se.Insert e s).2.1)] (se.Insert e s).2.2).2.1
        = (se.Insert e s).2.1

end Rdb

namespace Rdb

/-! ## What `create` does, branch by branch -/

/-- A Go string has length zero exactly when it is the empty string. -/
theorem length_eq_zero_iff_empty (x : String) : x.length = 0 ↔ x = "" := by
  constructor
  · intro h
    have hd : x.data = [] := List.length_eq_zero.mp h
    cases x
    simp_all
  · intro h
    subst h
    rfl

/-- With an empty identifier `create` reaches `Insert` through the generator. -/
theorem create_reach_empty {σ E : Type} [Entity E] (NewID : σ → String × σ)
    (entity : E) (s : σ) (hempty : Entity.GetID entity = "") :
    create.reach NewID entity s = (Entity.SetID entity (NewID s).1, (NewID s).2) := by
  unfold create.reach
  rw [if_pos ((length_eq_zero_iff_empty _).mpr hempty)]

/-- With an identifier `create` reaches `Insert` directly. -/
theorem create_reach_given {σ E : Type} [Entity E] (NewID : σ → String × σ)
    (entity : E) (s : σ) (hgiven : Entity.GetID entity ≠ "") :
    create.reach NewID entity s = (entity, s) := by
  unfold create.reach
  rw [if_neg (fun h => hgiven ((length_eq_zero_iff_empty _).mp h))]

/-- The entity and the state that `create` leaves are those its `Insert` left, and its calls
are the generator call, if the identifier was empty, and then that `Insert`. -/
theorem create_frame {σ E D : Type} [Entity E] (NewID : σ → String × σ)
    (entity : E) (se : SqlExecutor σ E D) (s : σ) :
    (create NewID entity se s).value = (create.inserted NewID entity se s).2.1 ∧
    (create NewID entity se s).state = (create.inserted NewID entity se s).2.2 ∧
    (create NewID entity se s).calls =
      (if (Entity.GetID entity).length = 0 then [Call.NewID (NewID s).1] else []) ++
        [Call.Insert (create.reach NewID entity s).1] := by
  unfold create create.inserted create.reach
  by_cases h : (Entity.GetID entity).length = 0
  · simp only [h, if_true]
    refine ⟨?_, ?_, ?_⟩ <;> (split <;> [(split <;> [split_ifs <;> rfl; rfl]); rfl])
  · simp only [h, if_false]
    refine ⟨?_, ?_, ?_⟩ <;> (split <;> [(split <;> [split_ifs <;> rfl; rfl]); rfl])

/-- The error of `create`, from the error of its `Insert`. -/
theorem create_err_frame {σ E D : Type} [Entity E] (NewID : σ → String × σ)
    (entity : E) (se : SqlExecutor σ E D) (s : σ) :
    (create NewID entity se s).err =
      match (create.inserted NewID entity se s).1 with
      | none => none
      | some err =>
        match errors.As err with
        | some pqError =>
          if pqError.Code.Name = "unique_violation" then
            some (.ErrEntityAlreadyExists (.pq pqError))
          else some err
        | none => some err := by
  unfold create create.inserted create.reach
  by_cases h : (Entity.GetID entity).length = 0
  · simp only [h, if_true]
    generalize se.Insert (Entity.SetID entity (NewID s).1) (NewID s).2 = r
    rcases r with ⟨_ | err, e2, s2⟩
    · rfl
    · dsimp only
      cases errors.As err with
      | none => rfl
      | some p => dsimp only; split_ifs <;> rfl
  · simp only [h, if_false]
    generalize se.Insert entity s = r
    rcases r with ⟨_ | err, e2, s2⟩
    · rfl
    · dsimp only
      cases errors.As err with
      | none => rfl
      | some p => dsimp only; split_ifs <;> rfl

end Rdb

namespace Rdb

/-! ## Create: the identifier -/

/-- C1, as amended. For an entity whose identifier is empty and whose `SetID` stores the
identifier it is given, and for every executor, `create` calls the generator once and then
`Insert` once, handing `Insert` the entity with the generated identifier assigned; it does
not write to the entity after `Insert`, so the entity after `create` is the entity as
`Insert` left it: it carries exactly the generated identifier whenever `Insert` left the
identifier as it was, and that identifier is non-empty provided the generator yields a
non-empty string. -/
theorem create_assigns_generated_id {σ E D : Type} [Entity E] (NewID : σ → String × σ)
    (entity : E) (se : SqlExecutor σ E D) (s : σ)
    (hset : StoresID E) (hempty : Entity.GetID entity = "") :
    (create NewID entity se s).calls
      = [Call.NewID (NewID s).1, Call.Insert (Entity.SetID entity (NewID s).1)] ∧
    Entity.GetID (Entity.SetID entity (NewID s).1) = (NewID s).1 ∧
    (create NewID entity se s).value
      = (se.Insert (Entity.SetID entity (NewID s).1) (NewID s).2).2.1 ∧
    (Entity.GetID (se.Insert (Entity.SetID entity (NewID s).1) (NewID s).2).2.1
        = Entity.GetID (Entity.SetID entity (NewID s).1) →
      Entity.GetID (create NewID entity se s).value = (NewID s).1 ∧
      ((NewID s).1 ≠ "" → Entity.GetID (create NewID entity se s).value ≠ "")) := by
  obtain ⟨hv, -, hc⟩ := create_frame NewID entity se s
  have hr := create_reach_empty NewID entity s hempty
  have hlen : (Entity.GetID entity).length = 0 := (length_eq_zero_iff_empty _).mpr hempty
  simp only [create.inserted, hr] at hv
  simp only [hr, hlen, if_true] at hc
  refine ⟨by rw [hc]; rfl, hset _ _, hv, ?_⟩
  intro hkeep
  have hid : Entity.GetID (create NewID entity se s).value = (NewID s).1 := by
    rw [hv, hkeep, hset]
  exact ⟨hid, fun hne => by rw [hid]; exact hne⟩

/-- C1, witness: the entity `&EntitySample{}` created in an empty store in memory, as in
`TestCreateAndGet`. -/
theorem create_assigns_generated_id_witness :
    StoresID EntitySample ∧ Entity.GetID EntitySample.zero = "" ∧
    (create Store.NewID EntitySample.zero Store.executor Store.empty).calls
      = [Call.NewID "id-0", Call.Insert ⟨"id-0", false, 0⟩] ∧
    Entity.GetID (create Store.NewID EntitySample.zero Store.executor Store.empty).value
      = "id-0" :=
  ⟨fun _ _ => rfl, rfl,
    (create_assigns_generated_id Store.NewID EntitySample.zero Store.executor
      Store.empty (fun _ _ => rfl) rfl).1,
    ((create_assigns_generated_id Store.NewID EntitySample.zero Store.executor
      Store.empty (fun _ _ => rfl) rfl).2.2.2 rfl).1⟩

/-- C1, as stated, fails in two ways. An entity whose `SetID` has a value receiver reaches
`Insert` with its identifier still empty; and an entity whose insert hook writes the
identifier comes back from `create` with the hook's identifier, not the generated one,
although `Insert` was handed the generated one. -/
theorem create_assigns_generated_id_counterexample :
    ((create (constNewID "generated") (⟨""⟩ : ByValueSample)
        (stubExecutor id none (1, none) none : SqlExecutor Unit ByValueSample Unit) ()).calls
      = [Call.NewID "generated", Call.Insert ⟨""⟩]) ∧
    Entity.GetID (⟨""⟩ : ByValueSample) ≠ "generated" ∧
    ((create (constNewID "generated") EntitySample.zero
        (stubExecutor (fun e => { e with ID := "from-hook" }) none (1, none) none :
          SqlExecutor Unit EntitySample Unit) ()).calls
      = [Call.NewID "generated", Call.Insert ⟨"generated", false, 0⟩]) ∧
    Entity.GetID (create (constNewID "generated") EntitySample.zero
        (stubExecutor (fun e => { e with ID := "from-hook" }) none (1, none) none :
          SqlExecutor Unit EntitySample Unit) ()).value = "from-hook" ∧
    "from-hook" ≠ "generated" := by
  refine ⟨rfl, by decide, rfl, rfl, by decide⟩

/-- C2, as amended. For an entity whose identifier is non-empty and for every executor,
`create` does not call the generator: its one call is `Insert`, on the entity exactly as the
caller passed it and in the state it was called in. It does not write to the entity itself,
so the entity after `create`, with or without an error, is the entity as `Insert` left it,
and its identifier is the caller's whenever `Insert` left the identifier as it was. -/
theorem create_keeps_given_id {σ E D : Type} [Entity E] (NewID : σ → String × σ)
    (entity : E) (se : SqlExecutor σ E D) (s : σ)
    (hgiven : Entity.GetID entity ≠ "") :
    (create NewID entity se s).calls = [Call.Insert entity] ∧
    (create NewID entity se s).value = (se.Insert entity s).2.1 ∧
    (create NewID entity se s).state = (se.Insert entity s).2.2 ∧
    (Entity.GetID (se.Insert entity s).2.1 = Entity.GetID entity →
      Entity.GetID (create NewID entity se s).value = Entity.GetID entity) := by
  obtain ⟨hv, hs, hc⟩ := create_frame NewID entity se s
  have hr := create_reach_given NewID entity s hgiven
  have hlen : ¬ (Entity.GetID entity).length = 0 :=
    fun h => hgiven ((length_eq_zero_iff_empty _).mp h)
  simp only [create.inserted, hr] at hv hs
  simp only [hr, hlen, if_false] at hc
  exact ⟨by rw [hc]; rfl, hv, hs, fun hkeep => by rw [hv, hkeep]⟩

/-- C2, witness: an entity with the identifier `given` created in an empty store in memory,
as in `TestCreateGivenID`. -/
theorem create_keeps_given_id_witness :
    Entity.GetID (⟨"given", false, 0⟩ : EntitySample) ≠ "" ∧
    (create Store.NewID ⟨"given", false, 0⟩ Store.executor Store.empty).calls
      = [Call.Insert ⟨"given", false, 0⟩] ∧
    Entity.GetID (create Store.NewID ⟨"given", false, 0⟩ Store.executor Store.empty).value
      = "given" :=
  ⟨by decide,
    (create_keeps_given_id Store.NewID ⟨"given", false, 0⟩ Store.executor Store.empty
      (by decide)).1,
    (create_keeps_given_id Store.NewID ⟨"given", false, 0⟩ Store.executor Store.empty
      (by decide)).2.2.2 rfl⟩

/-- C2, as stated, fails for an entity whose insert hook writes the identifier: `Insert` is
handed the caller's identifier, and after `create` the entity has the hook's, whether
`Insert` succeeded or failed. -/
theorem create_keeps_given_id_counterexample :
    (create (constNewID "generated") (⟨"given", false, 0⟩ : EntitySample)
        (stubExecutor (fun e => { e with ID := "from-hook" }) none (1, none) none :
          SqlExecutor Unit EntitySample Unit) ()).calls
      = [Call.Insert ⟨"given", false, 0⟩] ∧
    Entity.GetID (create (constNewID "generated") (⟨"given", false, 0⟩ : EntitySample)
        (stubExecutor (fun e => { e with ID := "from-hook" }) none (1, none) none :
          SqlExecutor Unit EntitySample Unit) ()).value = "from-hook" ∧
    Entity.GetID (create (constNewID "generated") (⟨"given", false, 0⟩ : EntitySample)
        (stubExecutor (fun e => { e with ID := "from-hook" })
          (some (.errorString "insert failed")) (1, none) none :
          SqlExecutor Unit EntitySample Unit) ()).value = "from-hook" ∧
    "from-hook" ≠ "given" := by
  refine ⟨rfl, rfl, rfl, by decide⟩

end Rdb

namespace Rdb

/-- C10, as amended. For an entity whose identifier is empty and whose `SetID` stores the
identifier it is given, and for an executor whose `Insert` fails with an error `e`, `create`
returns an error, `e` itself or the `ErrEntityAlreadyExists` made from the driver error on
the chain of `e`, and the entity after `create` is the entity as `Insert` left it: nothing
is undone. When `Insert` left the identifier as it was, the entity still carries the
generated identifier, and, provided that identifier is non-empty, a second `create` of the
same entity does not call the generator and hands `Insert` the entity with that very
identifier. -/
theorem create_failure_keeps_generated_id {σ E D : Type} [Entity E]
    (NewID : σ → String × σ) (entity : E) (se : SqlExecutor σ E D) (s : σ) (e : GoError)
    (hset : StoresID E) (hempty : Entity.GetID entity = "")
    (hfail : (se.Insert (Entity.SetID entity (NewID s).1) (NewID s).2).1 = some e) :
    ((create NewID entity se s).err = some e ∨
      ∃ p, errors.As e = some p ∧
        (create NewID entity se s).err = some (.ErrEntityAlreadyExists (.pq p))) ∧
    (create NewID entity se s).value
      = (se.Insert (Entity.SetID entity (NewID s).1) (NewID s).2).2.1 ∧
    (Entity.GetID (se.Insert (Entity.SetID entity (NewID s).1) (NewID s).2).2.1
        = Entity.GetID (Entity.SetID entity (NewID s).1) →
      Entity.GetID (create NewID entity se s).value = (NewID s).1 ∧
      ((NewID s).1 ≠ "" →
        (create NewID (create NewID entity se s).value se (create NewID entity se s).state).calls
          = [Call.Insert (create NewID entity se s).value])) := by
  obtain ⟨hv, -, -⟩ := create_frame NewID entity se s
  have herr := create_err_frame NewID entity se s
  have hr := create_reach_empty NewID entity s hempty
  simp only [create.inserted, hr] at hv herr
  rw [hfail] at herr
  refine ⟨?_, hv, ?_⟩
  · cases hp : errors.As e with
    | none => left; rw [herr]; simp only [hp]
    | some p =>
      simp only [hp] at herr
      by_cases hn : p.Code.Name = "unique_violation"
      · right; exact ⟨p, rfl, by rw [herr, if_pos hn]⟩
      · left; rw [herr, if_neg hn]
  · intro hkeep
    have hid : Entity.GetID (create NewID entity se s).value = (NewID s).1 := by
      rw [hv, hkeep, hset]
    refine ⟨hid, fun hne => ?_⟩
    obtain ⟨-, -, hc⟩ :=
      create_frame NewID (create NewID entity se s).value se (create NewID entity se s).state
    have hgiven : Entity.GetID (create NewID entity se s).value ≠ "" := by rw [hid]; exact hne
    have hlen : ¬ (Entity.GetID (create NewID entity se s).value).length = 0 :=
      fun h => hgiven ((length_eq_zero_iff_empty _).mp h)
    rw [hc, create_reach_given NewID _ _ hgiven, if_neg hlen]
    rfl

/-- C10, witness: a second `&EntitySample{}` is given the identifier of a row that is in
the store already; `create` fails, the entity keeps that identifier, and the retry goes to
`Insert` without the generator. -/
theorem create_failure_keeps_generated_id_witness :
    (create (constNewID "id-0") EntitySample.zero Store.executor
        ⟨[⟨"id-0", false, 0⟩], 5000, 1⟩).err
      = some (.ErrEntityAlreadyExists (.pq duplicateKey)) ∧
    Entity.GetID (create (constNewID "id-0") EntitySample.zero Store.executor
        ⟨[⟨"id-0", false, 0⟩], 5000, 1⟩).value = "id-0" ∧
    (create (constNewID "id-0")
        (create (constNewID "id-0") EntitySample.zero Store.executor
          ⟨[⟨"id-0", false, 0⟩], 5000, 1⟩).value
        Store.executor
        (create (constNewID "id-0") EntitySample.zero Store.executor
          ⟨[⟨"id-0", false, 0⟩], 5000, 1⟩).state).calls
      = [Call.Insert ⟨"id-0", false, 5000⟩] :=
  ⟨rfl,
    ((create_failure_keeps_generated_id (constNewID "id-0") EntitySample.zero Store.executor
      ⟨[⟨"id-0", false, 0⟩], 5000, 1⟩ (.pq duplicateKey) (fun _ _ => rfl) rfl rfl).2.2 rfl).1,
    ((create_failure_keeps_generated_id (constNewID "id-0") EntitySample.zero Store.executor
      ⟨[⟨"id-0", false, 0⟩], 5000, 1⟩ (.pq duplicateKey) (fun _ _ => rfl) rfl rfl).2.2 rfl).2
      (by decide)⟩

/-- C10, as stated, fails in two ways. When the insert hook of the entity writes the
identifier before `Insert` fails, the entity does not carry the generated identifier after
`create`; and when the generator yields the empty string, the retry calls the generator
again. -/
theorem create_failure_keeps_generated_id_counterexample :
    ((create (constNewID "generated") EntitySample.zero
        (stubExecutor (fun e => { e with ID := "from-hook" })
          (some (.errorString "insert failed")) (1, none) none :
          SqlExecutor Unit EntitySample Unit) ()).err = some (.errorString "insert failed") ∧
     Entity.GetID (create (constNewID "generated") EntitySample.zero
        (stubExecutor (fun e => { e with ID := "from-hook" })
          (some (.errorString "insert failed")) (1, none) none :
          SqlExecutor Unit EntitySample Unit) ()).value = "from-hook" ∧
     "from-hook" ≠ "generated") ∧
    ((create (constNewID "") EntitySample.zero
        (stubExecutor id (some (.errorString "insert failed")) (1, none) none :
          SqlExecutor Unit EntitySample Unit) ()).err = some (.errorString "insert failed") ∧
     (create (constNewID "")
        (create (constNewID "") EntitySample.zero
          (stubExecutor id (some (.errorString "insert failed")) (1, none) none :
            SqlExecutor Unit EntitySample Unit) ()).value
        (stubExecutor id (some (.errorString "insert failed")) (1, none) none :
          SqlExecutor Unit EntitySample Unit) ()).calls
      = [Call.NewID "", Call.Insert EntitySample.zero]) := by
  refine ⟨⟨rfl, rfl, by decide⟩, rfl, rfl⟩

end Rdb

namespace Rdb

/-! ## Create and Update: the error returned -/

/-- C3, as amended. `create` returns nil exactly when its `Insert` returns no error. When
`Insert` returns an error `e` and `errors.As` finds a driver error `p` on the chain of `e`
(`p` is `e` itself when `e` is a driver error) whose code name is `unique_violation`,
`create` returns an `ErrEntityAlreadyExists` whose `OriginalError` is `p` and whose `Error()`
is the message of `p`; for every other `e` it returns `e` itself. So it returns an
`ErrEntityAlreadyExists` exactly when there is such a `p` or `e` is one already. -/
theorem create_error_cases {σ E D : Type} [Entity E] (NewID : σ → String × σ)
    (entity : E) (se : SqlExecutor σ E D) (s : σ) :
    ((create NewID entity se s).err = none ↔ (create.inserted NewID entity se s).1 = none) ∧
    (∀ e p, (create.inserted NewID entity se s).1 = some e → errors.As e = some p →
      p.Code.Name = "unique_violation" →
        (create NewID entity se s).err = some (.ErrEntityAlreadyExists (.pq p)) ∧
        (GoError.ErrEntityAlreadyExists (.pq p)).Error = (GoError.pq p).Error) ∧
    (∀ p, errors.As (.pq p) = some p) ∧
    (∀ e, (create.inserted NewID entity se s).1 = some e →
      (¬ ∃ p, errors.As e = some p ∧ p.Code.Name = "unique_violation") →
        (create NewID entity se s).err = some e) ∧
    (∀ e, (create.inserted NewID entity se s).1 = some e →
      ((∃ o, (create NewID entity se s).err = some (.ErrEntityAlreadyExists o)) ↔
        ((∃ p, errors.As e = some p ∧ p.Code.Name = "unique_violation") ∨
          ∃ o, e = .ErrEntityAlreadyExists o))) := by
  have herr := create_err_frame NewID entity se s
  refine ⟨?_, ?_, fun _ => rfl, ?_, ?_⟩
  · rw [herr]
    cases hi : (create.inserted NewID entity se s).1 with
    | none => simp
    | some e =>
      cases hp : errors.As e with
      | none => simp [hp]
      | some p => by_cases hn : p.Code.Name = "unique_violation" <;> simp [hp, hn]
  · intro e p hi hp hn
    rw [herr, hi]
    exact ⟨by simp only [hp, if_pos hn], rfl⟩
  · intro e hi hno
    rw [herr, hi]
    cases hp : errors.As e with
    | none => simp only [hp]
    | some p =>
      have hn : ¬ p.Code.Name = "unique_violation" := fun h => hno ⟨p, hp, h⟩
      simp only [hp, if_neg hn]
  · intro e hi
    rw [herr, hi]
    cases hp : errors.As e with
    | none =>
      simp [hp]
    | some p =>
      by_cases hn : p.Code.Name = "unique_violation"
      · simp only [hp, if_pos hn, Option.some.injEq]
        exact ⟨fun _ => Or.inl ⟨p, rfl, hn⟩, fun _ => ⟨_, rfl⟩⟩
      · simp only [hp, if_neg hn, Option.some.injEq]
        constructor
        · rintro ⟨o, ho⟩; exact Or.inr ⟨o, ho⟩
        · rintro (⟨q, hq, hqn⟩ | ⟨o, ho⟩)
          · exact absurd (hq ▸ hqn) hn
          · subst ho; simp [errors.As] at hp

/-- C3, as stated, fails when `Insert` returns a driver error wrapped by an insert hook
(`fmt.Errorf("audit: %w", err)`): the error of `Insert` is not a driver error, yet `create`
returns an `ErrEntityAlreadyExists`; its `OriginalError` is the driver error found on the
chain, not the error `Insert` returned, and its `Error()` is not that error's message. -/
theorem create_error_cases_counterexample :
    (create (constNewID "generated") EntitySample.zero
        (stubExecutor id
          (some (.wrapError "audit: pq: duplicate key" (.pq duplicateKey))) (1, none) none :
          SqlExecutor Unit EntitySample Unit) ()).err
      = some (.ErrEntityAlreadyExists (.pq duplicateKey)) ∧
    (¬ ∃ p, GoError.wrapError "audit: pq: duplicate key" (.pq duplicateKey) = .pq p) ∧
    GoError.pq duplicateKey ≠ .wrapError "audit: pq: duplicate key" (.pq duplicateKey) ∧
    (GoError.ErrEntityAlreadyExists (.pq duplicateKey)).Error
      ≠ (GoError.wrapError "audit: pq: duplicate key" (.pq duplicateKey)).Error := by
  refine ⟨rfl, ?_, by decide, by decide⟩
  rintro ⟨p, hp⟩
  cases hp

/-- C4, as amended. When the executor's `Update` returns the count 0 with no error, `update`
returns a new error whose message is exactly "Unexpected update count: 0"; when it returns
an error `e`, `update` returns `e` unchanged whatever the count; when it returns no error
and a non-zero count, `update` returns nil. So `update` returns an error with that message
exactly when the executor returned the count 0 with no error or returned an error that has
that message itself. -/
theorem update_error_cases {σ E D : Type} (entity : E) (se : SqlExecutor σ E D) (s : σ) :
    ((se.Update entity s).1 = (0, none) →
      (update entity se s).err = some (fmt.Errorf "Unexpected update count: 0") ∧
      (fmt.Errorf "Unexpected update count: 0").Error = "Unexpected update count: 0") ∧
    (∀ e, (se.Update entity s).1.2 = some e → (update entity se s).err = some e) ∧
    ((se.Update entity s).1.2 = none → (se.Update entity s).1.1 ≠ 0 →
      (update entity se s).err = none) ∧
    ((∃ x, (update entity se s).err = some x ∧ x.Error = "Unexpected update count: 0") ↔
      ((se.Update entity s).1 = (0, none) ∨
        ∃ e, (se.Update entity s).1.2 = some e ∧ e.Error = "Unexpected update count: 0")) ∧
    (update entity se s).calls = [Call.Update entity] ∧
    (update entity se s).value = (se.Update entity s).2.1 := by
  unfold update
  generalize se.Update entity s = r
  rcases r with ⟨⟨count, _ | e⟩, e2, s2⟩
  · by_cases hc : count = 0
    · subst hc
      refine ⟨fun _ => ⟨rfl, rfl⟩, ?_, ?_, ?_, rfl, rfl⟩
      · intro e h; cases h
      · intro _ h; exact absurd rfl h
      · constructor
        · intro _; exact Or.inl rfl
        · intro _; exact ⟨_, rfl, rfl⟩
    · refine ⟨?_, ?_, ?_, ?_, rfl, rfl⟩
      · intro h
        simp only [Prod.mk.injEq] at h
        exact absurd h.1 hc
      · intro e h; cases h
      · intro _ _; simp [hc]
      · simp [hc]
  · refine ⟨?_, ?_, ?_, ?_, rfl, rfl⟩
    · intro h; simp at h
    · intro e1 h; simpa using h
    · intro h; simp at h
    · simp

/-- C4, as stated, fails when the executor's `Update` itself returns an error with that
message (an update hook that updates a second entity through the repository and passes its
error on): `update` returns an error whose message is "Unexpected update count: 0", and the
executor did not return the count 0 with no error. -/
theorem update_error_cases_counterexample :
    (∃ x, (update EntitySample.zero
        (stubExecutor id none (1, some (fmt.Errorf "Unexpected update count: 0")) none :
          SqlExecutor Unit EntitySample Unit) ()).err = some x ∧
      x.Error = "Unexpected update count: 0") ∧
    ((stubExecutor id none (1, some (fmt.Errorf "Unexpected update count: 0")) none :
        SqlExecutor Unit EntitySample Unit).Update EntitySample.zero ()).1
      ≠ (0, none) := by
  refine ⟨⟨_, rfl, rfl⟩, ?_⟩
  intro h
  cases h

end Rdb

namespace Rdb

/-! ## The query of `getByID` -/

/-- A character that is not a question mark is copied by the placeholder rewriting. -/
theorem replace_cons_of_ne (c : Char) (rest : List Char) (i : Nat) (hc : c ≠ '?') :
    sq.replacePositionalPlaceholders (c :: rest) i
      = c :: sq.replacePositionalPlaceholders rest i := by
  rw [sq.replacePositionalPlaceholders]
  · intro r h _; exact hc h
  · intro h; exact hc h

/-- A text without question marks is copied by the placeholder rewriting, which goes on with
the same count after it. -/
theorem replace_append_of_not_mem (l rest : List Char) (i : Nat) (hl : '?' ∉ l) :
    sq.replacePositionalPlaceholders (l ++ rest) i
      = l ++ sq.replacePositionalPlaceholders rest i := by
  induction l with
  | nil => rfl
  | cons c l ih =>
    have hc : c ≠ '?' := fun h => hl (h ▸ List.mem_cons_self _ _)
    have hl1 : '?' ∉ l := fun h => hl (List.mem_cons_of_mem _ h)
    rw [List.cons_append, replace_cons_of_ne _ _ _ hc, ih hl1, List.cons_append]

/-- The statement that the builder of `getByID` renders, before the placeholders are
rewritten, and its arguments. -/
theorem byIDBuilder_toSqlRaw (tbl id : String) :
    ((byIDBuilder tbl id).PlaceholderFormat .Dollar).data.toSqlRaw
      = .ok ("SELECT * FROM " ++ tbl ++ " WHERE id = ?", [Arg.str id]) := by
  have h1 : ¬ ("id = ?" = "") := by decide
  have h2 : ¬ ("*".length = 0) := by decide
  have h3 : ¬ ("id = ?".length = 0) := by decide
  have h4 : ¬ (0 > 0) := by decide
  simp only [byIDBuilder, sq.Select, sq.SelectBuilder.From, sq.SelectBuilder.Where,
    sq.SelectBuilder.PlaceholderFormat, sq.selectData.toSqlRaw, sq.appendToSql,
    sq.appendToSqlFrom, if_neg h1, if_neg h2, if_neg h3, if_neg h4, List.map,
    List.length_cons, List.length_nil, List.nil_append, List.append_nil]
  have h5 : ¬ (0 + 1 = 0) := by decide
  have h6 : 0 + 1 > 0 := by decide
  rw [if_neg h5, if_pos h6]
  by_cases ht : tbl.length = 0
  · have : tbl = "" := (length_eq_zero_iff_empty tbl).mp ht
    subst this
    rfl
  · rw [if_neg ht]
    congr 2
    apply String.ext
    simp only [String.data_append, List.nil_append, List.append_nil, List.append_assoc,
      List.cons_append]

/-- The text that `getByID` hands to `SelectOne` for a table whose name has no question
mark: the one placeholder is numbered 1. -/
theorem byIDBuilder_toSql (tbl id : String) (htbl : '?' ∉ tbl.data) :
    ((byIDBuilder tbl id).PlaceholderFormat .Dollar).ToSql
      = .ok ("SELECT * FROM " ++ tbl ++ " WHERE id = $1", [Arg.str id]) := by
  unfold sq.SelectBuilder.ToSql
  rw [byIDBuilder_toSqlRaw]
  have hf : ((byIDBuilder tbl id).PlaceholderFormat .Dollar).data.PlaceholderFormat
      = .Dollar := by
    simp only [byIDBuilder, sq.SelectBuilder.PlaceholderFormat]
  simp only [hf, sq.PlaceholderFormat.ReplacePlaceholders]
  congr 2
  apply String.ext
  have hpre : '?' ∉ ("SELECT * FROM " ++ tbl).data := by
    simp only [String.data_append, List.mem_append, not_or]
    exact ⟨by decide, htbl⟩
  have hsplit : ("SELECT * FROM " ++ tbl ++ " WHERE id = ?").data
      = (("SELECT * FROM " ++ tbl).data ++ " WHERE id = ".data) ++ ['?'] := by
    simp only [String.data_append, List.append_assoc]
    rfl
  show sq.replacePositionalPlaceholders ("SELECT * FROM " ++ tbl ++ " WHERE id = ?").data 0
    = ("SELECT * FROM " ++ tbl ++ " WHERE id = $1").data
  rw [hsplit, replace_append_of_not_mem _ _ _
    (by simp only [List.mem_append, not_or]; exact ⟨hpre, by decide⟩)]
  simp only [String.data_append, List.append_assoc]
  rfl

/-- The builder of `getByID` always renders: it has a column. -/
theorem byIDBuilder_toSql_ok (tbl id : String) :
    ∃ query, ((byIDBuilder tbl id).PlaceholderFormat .Dollar).ToSql
      = .ok (query, [Arg.str id]) := by
  unfold sq.SelectBuilder.ToSql
  rw [byIDBuilder_toSqlRaw]
  exact ⟨_, rfl⟩

end Rdb

namespace Rdb

/-! ## Get and GetByID -/

/-- Once its builder has rendered, `get` is the one call of `SelectOne`. -/
theorem get_of_toSql {σ E D : Type} (dest : D) (sb : sq.SelectBuilder)
    (se : SqlExecutor σ E D) (s : σ) (query : String) (args : List Arg)
    (hsql : (sb.PlaceholderFormat .Dollar).ToSql = .ok (query, args)) :
    get dest sb se s = ⟨(se.SelectOne dest query args s).1, (se.SelectOne dest query args s).2.1,
      (se.SelectOne dest query args s).2.2, [Call.SelectOne dest query args]⟩ := by
  unfold get
  rw [hsql]

/-- For a destination with a table, `getByID` is `get` on the builder for that table. -/
theorem getByID_of_table {σ E D : Type} (typeName : D → String) (dest : D) (id : String)
    (se : SqlExecutor σ E D) (dbmap : DbMap σ E D) (s : σ) (tmap : TableMap)
    (hreg : dbmap.TableFor dest = some tmap) :
    getByID typeName dest id se dbmap s = get dest (byIDBuilder tmap.TableName id) se s := by
  unfold getByID
  rw [hreg]
  rfl

/-- For a destination without a table, `getByID` returns at once. -/
theorem getByID_of_no_table {σ E D : Type} (typeName : D → String) (dest : D) (id : String)
    (se : SqlExecutor σ E D) (dbmap : DbMap σ E D) (s : σ)
    (hreg : dbmap.TableFor dest = none) :
    getByID typeName dest id se dbmap s = ⟨some (unknownTable typeName dest), dest, s, []⟩ := by
  unfold getByID
  rw [hreg]
  rfl

/-- C5. For a destination of a registered type and every identifier: if the `SelectOne` that
`get` calls for a builder, or that `getByID` calls for the identifier, returns an error `e`
(the driver's no-rows error, for one), then `get` and `getByID` return exactly `e`, and the
destination afterwards is the destination as `SelectOne` left it, so a destination that
`SelectOne` left untouched is untouched. -/
theorem get_passes_select_error {σ E D : Type} (typeName : D → String) (dest : D)
    (id : String) (sb : sq.SelectBuilder) (se : SqlExecutor σ E D) (dbmap : DbMap σ E D)
    (s : σ) (tmap : TableMap) (hreg : dbmap.TableFor dest = some tmap) :
    (∀ query args e, (sb.PlaceholderFormat .Dollar).ToSql = .ok (query, args) →
      (se.SelectOne dest query args s).1 = some e →
        (get dest sb se s).err = some e ∧
        (get dest sb se s).value = (se.SelectOne dest query args s).2.1 ∧
        ((se.SelectOne dest query args s).2.1 = dest → (get dest sb se s).value = dest)) ∧
    (∀ query args e,
      ((byIDBuilder tmap.TableName id).PlaceholderFormat .Dollar).ToSql = .ok (query, args) →
      (se.SelectOne dest query args s).1 = some e →
        (getByID typeName dest id se dbmap s).calls = [Call.SelectOne dest query args] ∧
        (getByID typeName dest id se dbmap s).err = some e ∧
        (getByID typeName dest id se dbmap s).value = (se.SelectOne dest query args s).2.1 ∧
        ((se.SelectOne dest query args s).2.1 = dest →
          (getByID typeName dest id se dbmap s).value = dest)) := by
  constructor
  · intro query args e hsql he
    rw [get_of_toSql dest sb se s query args hsql]
    exact ⟨he, rfl, fun h => h⟩
  · intro query args e hsql he
    rw [getByID_of_table typeName dest id se dbmap s tmap hreg,
      get_of_toSql dest _ se s query args hsql]
    exact ⟨rfl, he, rfl, fun h => h⟩

/-- C5, witness: `GetByID` of an identifier that was never inserted, on the empty store in
memory, as in `TestGetNotFound`: the error is `sql.ErrNoRows` and the identifier of the
destination is still empty. -/
theorem get_passes_select_error_witness :
    Store.dbmap.TableFor EntitySample.zero = some ⟨"entity_sample"⟩ ∧
    (getByID EntitySample.typeName EntitySample.zero "id-7" Store.executor Store.dbmap
      Store.empty).err = some sql.ErrNoRows ∧
    Entity.GetID (getByID EntitySample.typeName EntitySample.zero "id-7" Store.executor
      Store.dbmap Store.empty).value = "" := by
  have h := (get_passes_select_error EntitySample.typeName EntitySample.zero "id-7"
    (sq.Select ["*"]) Store.executor Store.dbmap Store.empty ⟨"entity_sample"⟩ rfl).2
    Store.byID [Arg.str "id-7"] sql.ErrNoRows rfl rfl
  exact ⟨rfl, h.2.1, by rw [h.2.2.2 rfl]; rfl⟩

/-- C6, as amended. When the mapping has no table for the type of the destination, `getByID`
returns the unknown-table error without building a query and without calling `SelectOne`,
and leaves the destination and the state as they were. When the mapping has a table, it
calls `SelectOne` once and returns what `SelectOne` returns. So it makes no call exactly when
the mapping has no table, and it returns the unknown-table error exactly when the mapping
has no table or `SelectOne` returned that very error. -/
theorem getByID_unknown_table {σ E D : Type} (typeName : D → String) (dest : D)
    (id : String) (se : SqlExecutor σ E D) (dbmap : DbMap σ E D) (s : σ) :
    (dbmap.TableFor dest = none →
      getByID typeName dest id se dbmap s
        = ⟨some (fmt.Errorf ("Unknown table for type: " ++ typeName dest)), dest, s, []⟩) ∧
    (∀ tmap, dbmap.TableFor dest = some tmap →
      ∃ query,
        (getByID typeName dest id se dbmap s).calls
          = [Call.SelectOne dest query [Arg.str id]] ∧
        (getByID typeName dest id se dbmap s).err
          = (se.SelectOne dest query [Arg.str id] s).1) ∧
    ((getByID typeName dest id se dbmap s).calls = [] ↔ dbmap.TableFor dest = none) ∧
    ((getByID typeName dest id se dbmap s).err = some (unknownTable typeName dest) ↔
      (dbmap.TableFor dest = none ∨
        ∃ query,
          (getByID typeName dest id se dbmap s).calls
            = [Call.SelectOne dest query [Arg.str id]] ∧
          (se.SelectOne dest query [Arg.str id] s).1
            = some (unknownTable typeName dest))) := by
  cases hreg : dbmap.TableFor dest with
  | none =>
    have h := getByID_of_no_table typeName dest id se dbmap s hreg
    refine ⟨fun _ => h, fun tmap ht => (by cases ht), ?_, ?_⟩
    · rw [h]; simp
    · rw [h]; simp
  | some tmap =>
    obtain ⟨query, hq⟩ := byIDBuilder_toSql_ok tmap.TableName id
    have h : getByID typeName dest id se dbmap s = _ :=
      (getByID_of_table typeName dest id se dbmap s tmap hreg).trans
        (get_of_toSql dest _ se s query _ hq)
    refine ⟨fun ht => (by cases ht), fun _ _ => ⟨query, by rw [h], by rw [h]⟩, ?_, ?_⟩
    · rw [h]; simp
    · rw [h]
      simp only [reduceCtorEq, false_or]
      constructor
      · intro he; exact ⟨query, rfl, he⟩
      · rintro ⟨q, hc, he⟩
        simp only [List.cons.injEq, Call.SelectOne.injEq, true_and, and_true] at hc
        rw [hc]; exact he

/-- C6, as stated, fails when the type has a table and `SelectOne` returns an error equal to
the unknown-table error: `getByID` fails with that error although the mapping has the
table, and it has built the query and called `SelectOne`. -/
theorem getByID_unknown_table_counterexample :
    (stubDbMap relayingExecutor (some ⟨"entity_sample"⟩)).TableFor EntitySample.zero ≠ none ∧
    (getByID EntitySample.typeName EntitySample.zero "id-7" relayingExecutor
        (stubDbMap relayingExecutor (some ⟨"entity_sample"⟩)) ()).err
      = some (fmt.Errorf ("Unknown table for type: " ++ EntitySample.typeName EntitySample.zero)) ∧
    (getByID EntitySample.typeName EntitySample.zero "id-7" relayingExecutor
        (stubDbMap relayingExecutor (some ⟨"entity_sample"⟩)) ()).calls
      = [Call.SelectOne EntitySample.zero "SELECT * FROM entity_sample WHERE id = $1"
          [Arg.str "id-7"]] := by
  refine ⟨by simp [stubDbMap], rfl, rfl⟩

/-- C7. For a destination whose type is mapped to the table `tbl` (a snake-cased type name,
so without a question mark) and for every identifier, `getByID` is `get` on the builder
`SELECT * FROM tbl WHERE id = ?` with the identifier as its argument; under dollar
placeholders that builder renders to the text `SELECT * FROM tbl WHERE id = $1` with the
arguments `[id]`, and `getByID` calls `SelectOne` exactly once, with that text and that one
argument: the text does not depend on the identifier. -/
theorem getByID_query {σ E D : Type} (typeName : D → String) (dest : D) (id : String)
    (se : SqlExecutor σ E D) (dbmap : DbMap σ E D) (s : σ) (tbl : String)
    (hreg : dbmap.TableFor dest = some ⟨tbl⟩) (htbl : '?' ∉ tbl.data) :
    getByID typeName dest id se dbmap s
      = get dest (((sq.Select ["*"]).From tbl).Where "id = ?" [Arg.str id]) se s ∧
    ((((sq.Select ["*"]).From tbl).Where "id = ?" [Arg.str id]).PlaceholderFormat .Dollar).ToSql
      = .ok ("SELECT * FROM " ++ tbl ++ " WHERE id = $1", [Arg.str id]) ∧
    (getByID typeName dest id se dbmap s).calls
      = [Call.SelectOne dest ("SELECT * FROM " ++ tbl ++ " WHERE id = $1") [Arg.str id]] ∧
    (getByID typeName dest id se dbmap s).err
      = (se.SelectOne dest ("SELECT * FROM " ++ tbl ++ " WHERE id = $1") [Arg.str id] s).1 ∧
    (getByID typeName dest id se dbmap s).value
      = (se.SelectOne dest ("SELECT * FROM " ++ tbl ++ " WHERE id = $1") [Arg.str id] s).2.1
    := by
  have hg := getByID_of_table typeName dest id se dbmap s ⟨tbl⟩ hreg
  have hq := byIDBuilder_toSql tbl id htbl
  have h := hg.trans (get_of_toSql dest _ se s _ _ hq)
  exact ⟨hg, hq, by rw [h], by rw [h], by rw [h]⟩

/-- C7, witness: `GetByID` on the store in memory with an identifier full of quotes and
question marks; the text is the same as for every identifier. -/
theorem getByID_query_witness :
    Store.dbmap.TableFor EntitySample.zero = some ⟨"entity_sample"⟩ ∧
    '?' ∉ "entity_sample".data ∧
    (getByID EntitySample.typeName EntitySample.zero "x' OR '?'='?" Store.executor Store.dbmap
      Store.empty).calls
      = [Call.SelectOne EntitySample.zero "SELECT * FROM entity_sample WHERE id = $1"
          [Arg.str "x' OR '?'='?"]] :=
  ⟨rfl, by decide,
    (getByID_query EntitySample.typeName EntitySample.zero "x' OR '?'='?" Store.executor
      Store.dbmap Store.empty "entity_sample" rfl (by decide)).2.2.1⟩

end Rdb

namespace Rdb

/-! ## The two facades -/

/-- C8. For a `Tx` whose transaction behaves as the executor of a `Repo` and whose mapping is
that of the `Repo`, each of `Create`, `Update`, `Get`, `GetByID` and `Find` on the `Tx`
returns the same error, leaves the same object and state and makes the same calls with the
same arguments as the operation of the same name on the `Repo`; `Tx.GetByID` takes the
table from the mapping held by the `Tx`, and the `Tx` that `Begin` returns holds the mapping
of the `Repo` that began it. -/
theorem tx_same_as_repo {σ E D : Type} [Entity E] (NewID : σ → String × σ)
    (typeName : D → String) (r : Repo σ E D) (t : Tx σ E D)
    (hse : t.transaction.toSqlExecutor = r.dbmap.toSqlExecutor)
    (hmap : t.dbmap.TableFor = r.dbmap.TableFor) :
    (∀ entity s, Tx.Create NewID t entity s = Repo.Create NewID r entity s) ∧
    (∀ entity s, Tx.Update t entity s = Repo.Update r entity s) ∧
    (∀ dest sb s, Tx.Get t dest sb s = Repo.Get r dest sb s) ∧
    (∀ dest id s, Tx.GetByID typeName t dest id s = Repo.GetByID typeName r dest id s) ∧
    (∀ dest sb s, Tx.Find t dest sb s = Repo.Find r dest sb s) ∧
    (∀ dest id s, Tx.GetByID typeName t dest id s
      = getByID typeName dest id t.transaction.toSqlExecutor t.dbmap s) ∧
    (∀ s t1 s1, r.Begin s = (.ok t1, s1) → t1.dbmap = r.dbmap) := by
  refine ⟨?_, ?_, ?_, ?_, ?_, fun _ _ _ => rfl, ?_⟩
  · intro entity s
    simp only [Tx.Create, Repo.Create, hse]
  · intro entity s
    simp only [Tx.Update, Repo.Update, hse]
  · intro dest sb s
    simp only [Tx.Get, Repo.Get, hse]
  · intro dest id s
    simp only [Tx.GetByID, Repo.GetByID, hse, getByID, hmap]
  · intro dest sb s
    simp only [Tx.Find, Repo.Find, hse]
  · intro s t1 s1 h
    unfold Repo.Begin at h
    split at h
    · cases h
    · simp only [Prod.mk.injEq, Except.ok.injEq] at h
      rw [← h.1]

/-- C8, witness: the repository over the store in memory and the `Tx` that its `Begin`
returns; `GetByID` of a row gives the same through both. -/
theorem tx_same_as_repo_witness :
    (Repo.Begin ⟨Store.dbmap⟩ Store.empty).1 = .ok ⟨Store.transaction, Store.dbmap⟩ ∧
    Tx.GetByID EntitySample.typeName ⟨Store.transaction, Store.dbmap⟩ EntitySample.zero "id-0"
        ⟨[⟨"id-0", true, 5000⟩], 6000, 1⟩
      = Repo.GetByID EntitySample.typeName ⟨Store.dbmap⟩ EntitySample.zero "id-0"
        ⟨[⟨"id-0", true, 5000⟩], 6000, 1⟩ ∧
    (Repo.GetByID EntitySample.typeName ⟨Store.dbmap⟩ EntitySample.zero "id-0"
        ⟨[⟨"id-0", true, 5000⟩], 6000, 1⟩).value = ⟨"id-0", true, 5000⟩ :=
  ⟨rfl,
    (tx_same_as_repo Store.NewID EntitySample.typeName ⟨Store.dbmap⟩
      ⟨Store.transaction, Store.dbmap⟩ rfl rfl).2.2.2.1 EntitySample.zero "id-0"
      ⟨[⟨"id-0", true, 5000⟩], 6000, 1⟩,
    rfl⟩

/-! ## Round trip -/

/-- The store in memory reads back what it inserted. -/
theorem store_readsBackInserted : ReadsBackInserted Store.executor "entity_sample" := by
  intro e s hins dest
  have htext : "SELECT * FROM " ++ "entity_sample" ++ " WHERE id = $1" = Store.byID := by decide
  rw [htext]
  by_cases hdup : s.rows.any (fun r => r.ID = (e.PreInsert s.now).ID) = true
  · have hI : Store.executor.Insert e s
        = (some (.pq duplicateKey), e.PreInsert s.now,
            { rows := s.rows, now := s.now + 1, ids := s.ids }) := by
      simp only [Store.executor]
      rw [if_pos hdup]
    rw [hI] at hins
    cases hins
  · have hI : Store.executor.Insert e s
        = (none, e.PreInsert s.now,
            { rows := e.PreInsert s.now :: s.rows, now := s.now + 1, ids := s.ids }) := by
      simp only [Store.executor]
      rw [if_neg hdup]
    rw [hI]
    simp [Store.executor, Entity.GetID]

/-- The store whose column `created` holds whole seconds keeps one row per identifier:
`Insert` never leaves two rows with the same identifier. -/
theorem lossy_insert_oneRowPerID (e : EntitySample) (s : Store) (h : s.OneRowPerID) :
    (Store.lossyExecutor.Insert e s).2.2.OneRowPerID := by
  by_cases hdup : s.rows.any (fun r => r.ID = (e.PreInsert s.now).ID) = true
  · have hI : Store.lossyExecutor.Insert e s
        = (some (.pq duplicateKey), e.PreInsert s.now,
            { rows := s.rows, now := s.now + 1, ids := s.ids }) := by
      simp only [Store.lossyExecutor]
      rw [if_pos hdup]
    rw [hI]
    exact h
  · have hI : Store.lossyExecutor.Insert e s
        = (none, e.PreInsert s.now,
            { rows := (e.PreInsert s.now).toSeconds :: s.rows, now := s.now + 1,
              ids := s.ids }) := by
      simp only [Store.lossyExecutor]
      rw [if_neg hdup]
    rw [hI]
    unfold Store.OneRowPerID at h ⊢
    simp only [List.map_cons, List.nodup_cons]
    refine ⟨?_, h⟩
    intro hmem
    apply hdup
    obtain ⟨r, hr, hid⟩ := List.mem_map.mp hmem
    rw [List.any_eq_true]
    exact ⟨r, hr, by simpa [EntitySample.toSeconds] using hid⟩

/-- C9, as amended. Round trip of `Create` and `GetByID`: for an entity of a registered type,
with or without an identifier of its own, if `create` succeeds then its `Insert` succeeded,
and `getByID` with the identifier the entity has after `create`, in the state `create` left,
makes the one call of `SelectOne` for that identifier in the table of the type and returns
what that call returns. So over a store that reads back by identifier exactly the entity as
`Insert` left it, `getByID` succeeds and fills a fresh destination with a value equal to the
entity as it is after `create`, fields set at insert time included. -/
theorem create_then_getByID {σ E : Type} [Entity E] (NewID : σ → String × σ)
    (typeName : E → String) (entity fresh : E) (se : SqlExecutor σ E E)
    (dbmap : DbMap σ E E) (s : σ) (tbl : String)
    (hreg : dbmap.TableFor fresh = some ⟨tbl⟩) (htbl : '?' ∉ tbl.data)
    (hok : (create NewID entity se s).err = none) :
    (create.inserted NewID entity se s).1 = none ∧
    (create NewID entity se s).value = (create.inserted NewID entity se s).2.1 ∧
    (create NewID entity se s).state = (create.inserted NewID entity se s).2.2 ∧
    (getByID typeName fresh (Entity.GetID (create NewID entity se s).value) se dbmap
        (create NewID entity se s).state).calls
      = [Call.SelectOne fresh ("SELECT * FROM " ++ tbl ++ " WHERE id = $1")
          [Arg.str (Entity.GetID (create NewID entity se s).value)]] ∧
    (getByID typeName fresh (Entity.GetID (create NewID entity se s).value) se dbmap
        (create NewID entity se s).state).err
      = (se.SelectOne fresh ("SELECT * FROM " ++ tbl ++ " WHERE id = $1")
          [Arg.str (Entity.GetID (create NewID entity se s).value)]
          (create NewID entity se s).state).1 ∧
    (getByID typeName fresh (Entity.GetID (create NewID entity se s).value) se dbmap
        (create NewID entity se s).state).value
      = (se.SelectOne fresh ("SELECT * FROM " ++ tbl ++ " WHERE id = $1")
          [Arg.str (Entity.GetID (create NewID entity se s).value)]
          (create NewID entity se s).state).2.1 ∧
    (ReadsBackInserted se tbl →
      (getByID typeName fresh (Entity.GetID (create NewID entity se s).value) se dbmap
        (create NewID entity se s).state).err = none ∧
      (getByID typeName fresh (Entity.GetID (create NewID entity se s).value) se dbmap
        (create NewID entity se s).state).value = (create NewID entity se s).value) := by
  obtain ⟨hv, hs, -⟩ := create_frame NewID entity se s
  have herr := create_err_frame NewID entity se s
  have hins : (create.inserted NewID entity se s).1 = none := by
    rw [hok] at herr
    cases hi : (create.inserted NewID entity se s).1 with
    | none => rfl
    | some e =>
      rw [hi] at herr
      cases hp : errors.As e with
      | none => simp [hp] at herr
      | some p => by_cases hn : p.Code.Name = "unique_violation" <;> simp [hp, hn] at herr
  have hg := (getByID_of_table typeName fresh (Entity.GetID (create NewID entity se s).value)
    se dbmap (create NewID entity se s).state ⟨tbl⟩ hreg).trans
    (get_of_toSql fresh _ se _ _ _ (byIDBuilder_toSql tbl _ htbl))
  refine ⟨hins, hv, hs, by rw [hg], by rw [hg], by rw [hg], ?_⟩
  intro hstore
  have hrow := hstore (create.reach NewID entity s).1 (create.reach NewID entity s).2 hins fresh
  rw [hg, hv, hs]
  exact hrow

/-- C9, witness: `&EntitySample{}` and an entity with the identifier `given`, created in
the empty store in memory and read back into a fresh `&EntitySample{}`, as in
`TestCreateAndGet` and `TestCreateGivenID`. -/
theorem create_then_getByID_witness :
    (create Store.NewID EntitySample.zero Store.executor Store.empty).value
      = ⟨"id-0", false, 1700000000123456000⟩ ∧
    (getByID EntitySample.typeName EntitySample.zero "id-0" Store.executor Store.dbmap
      (create Store.NewID EntitySample.zero Store.executor Store.empty).state).value
      = ⟨"id-0", false, 1700000000123456000⟩ ∧
    (getByID EntitySample.typeName EntitySample.zero "given" Store.executor Store.dbmap
      (create Store.NewID ⟨"given", true, 7⟩ Store.executor Store.empty).state).value
      = ⟨"given", true, 1700000000123456000⟩ :=
  ⟨rfl,
    ((create_then_getByID Store.NewID EntitySample.typeName EntitySample.zero
      EntitySample.zero Store.executor Store.dbmap Store.empty "entity_sample" rfl
      (by decide) rfl).2.2.2.2.2.2 store_readsBackInserted).2,
    ((create_then_getByID Store.NewID EntitySample.typeName ⟨"given", true, 7⟩
      EntitySample.zero Store.executor Store.dbmap Store.empty "entity_sample" rfl
      (by decide) rfl).2.2.2.2.2.2 store_readsBackInserted).2⟩

/-- C9, as stated, fails over a store that keeps one row per identifier and holds the
column `created` in whole seconds: `&EntitySample{}` is created in the empty store, no two
rows share an identifier before or after, a second insert of the identifier is a
uniqueness violation, `getByID` with the identifier succeeds, and the value it fills in
differs from the created entity in the field set at insert time. -/
theorem create_then_getByID_counterexample :
    Store.empty.OneRowPerID ∧
    (create Store.NewID EntitySample.zero Store.lossyExecutor Store.empty).err = none ∧
    (create Store.NewID EntitySample.zero Store.lossyExecutor Store.empty).state.OneRowPerID ∧
    (Store.lossyExecutor.Insert ⟨"id-0", true, 0⟩
      (create Store.NewID EntitySample.zero Store.lossyExecutor Store.empty).state).1
      = some (.pq duplicateKey) ∧
    (create Store.NewID EntitySample.zero Store.lossyExecutor Store.empty).value
      = ⟨"id-0", false, 1700000000123456000⟩ ∧
    (getByID EntitySample.typeName EntitySample.zero "id-0" Store.lossyExecutor
      Store.lossyDbmap
      (create Store.NewID EntitySample.zero Store.lossyExecutor Store.empty).state).err
      = none ∧
    (getByID EntitySample.typeName EntitySample.zero "id-0" Store.lossyExecutor
      Store.lossyDbmap
      (create Store.NewID EntitySample.zero Store.lossyExecutor Store.empty).state).value
      = ⟨"id-0", false, 1700000000000000000⟩ ∧
    (getByID EntitySample.typeName EntitySample.zero "id-0" Store.lossyExecutor
      Store.lossyDbmap
      (create Store.NewID EntitySample.zero Store.lossyExecutor Store.empty).state).value
      ≠ (create Store.NewID EntitySample.zero Store.lossyExecutor Store.empty).value := by
  refine ⟨?_, rfl, ?_, rfl, rfl, rfl, rfl, ?_⟩
  · unfold Store.OneRowPerID
    decide
  · exact lossy_insert_oneRowPerID _ _ (by unfold Store.OneRowPerID; decide)
  · decide

end Rdb
